/-
Verification of the klepto2 container-image secret scanner (src/klepto2.py).

The Python source is shallowly embedded: each relevant Python function is
translated to an executable Lean definition over `List Char`-backed strings,
and the specification's claims are settled as theorems about those
definitions.  String primitives (`in`, `str.split`, `str.lower`,
`str.replace`, `fnmatch`) are implemented structurally over `String.data`
so that every definition evaluates by kernel reduction.
-/
import Mathlib

namespace Klepto2

/-! ## String primitives

Executable models of the Python string operations used by klepto2.
Python strings are modelled as Lean `String` (a list of characters).
-/

/-- Python `c in s` for a single character `c`. -/
def strContains (s : String) (c : Char) : Bool :=
  s.data.contains c

/-- Python `s.lower()`.  `Char.toLower` lowers ASCII letters, which covers
every string klepto2 lowercases (denylist terms, file patterns, names). -/
def strToLower (s : String) : String :=
  String.mk (s.data.map Char.toLower)

/-- Python `needle in haystack` substring containment. -/
def containsSubstr (haystack needle : String) : Bool :=
  haystack.data.tails.any (fun t => needle.data.isPrefixOf t)

/-- Python `s.split(sep)` for a one-character separator `sep`
(e.g. `image_name.split("/")`).  Always returns at least one piece. -/
def splitOnCharAux (sep : Char) : List Char → List Char → List String
  | [], acc => [String.mk acc.reverse]
  | c :: rest, acc =>
    if c == sep then String.mk acc.reverse :: splitOnCharAux sep rest []
    else splitOnCharAux sep rest (c :: acc)

/-- Python `s.split(sep)` for a one-character separator. -/
def splitOnChar (sep : Char) (s : String) : List String :=
  splitOnCharAux sep s.data []

/-- Python `s.splitlines()`, modelled as splitting on the newline character.
(The model keeps a trailing empty piece that `splitlines` drops and does not
fold `\r\n`; neither difference affects which lines contain `$`.) -/
def splitLines (s : String) : List String :=
  splitOnChar (Char.ofNat 10) s

/-- Helper for Python `s.replace(pat, sub)` (replace every occurrence of the
substring `pat`).  Fuel-driven so that it is structurally recursive; the fuel
is instantiated with the length of the input, which always suffices. -/
def replaceSubstrAux (pat sub : List Char) : Nat → List Char → List Char
  | _, [] => []
  | 0, s => s
  | fuel + 1, c :: rest =>
    if pat.isPrefixOf (c :: rest) && !pat.isEmpty then
      sub ++ replaceSubstrAux pat sub fuel (List.drop (pat.length - 1) rest)
    else
      c :: replaceSubstrAux pat sub fuel rest

/-- Python `s.replace(pat, sub)` for a non-empty pattern `pat`. -/
def strReplace (s pat sub : String) : String :=
  String.mk (replaceSubstrAux pat.data sub.data s.data.length s.data)

/-- Glob matching as used by Python `fnmatch.fnmatch` on Linux, for patterns
built from literals, `*` and `?` (the only constructs occurring in
`Config.SENSITIVE_FILES`; no `[...]` classes).  Structural recursion on the
pattern: `*` tries every suffix of the remaining name. -/
def globMatch (p : List Char) (s : List Char) : Bool :=
  match p with
  | [] => s.isEmpty
  | c :: ps =>
    if c == '*' then s.tails.any (fun t => globMatch ps t)
    else
      match s with
      | [] => false
      | d :: ds => (c == '?' || c == d) && globMatch ps ds

/-- Python `fnmatch.fnmatch(name, pattern)` on a case-sensitive platform
(klepto2 lowercases both arguments itself before calling it). -/
def fnmatch (name pattern : String) : Bool :=
  globMatch pattern.data name.data

/-! ## Config (src/klepto2.py, class Config) -/

namespace Config

/-- `Config.DESIRED_DETECTOR_TYPES`: the fixed allow-list of 22 TruffleHog
detector type codes. -/
def DESIRED_DETECTOR_TYPES : List Int :=
  [2, 3, 7, 9, 15, 17, 18, 31, 39, 40, 48, 69, 71, 120, 177, 350, 353, 582,
   584, 599, 737, 924]

/-- `Config.UNDESIRED_TERMS`: the placeholder denylist. -/
def UNDESIRED_TERMS : List String :=
  ["example", "test", "dummy", "sample"]

/-- `Config.OUTPUT_DIR` (default value). -/
def OUTPUT_DIR : String := "/app/output"

end Config

/-- One rule of `Config.SENSITIVE_FILES`. -/
structure SensitiveFileRule where
  name : String
  pattern : String
  action : String
deriving DecidableEq, Repr

/-- `Config.SENSITIVE_FILES`: the fixed filename-pattern rule set. -/
def SENSITIVE_FILES : List SensitiveFileRule :=
  [⟨"SHADOW", "shadow", "shadow"⟩,
   ⟨"SSH KEY", "*id_[rd]sa", "exist"⟩,
   ⟨"GIT CONFIG", ".git/config", "cat"⟩,
   ⟨"HTPASSWD", ".htpasswd", "cat"⟩,
   ⟨"NPMRC", ".npmrc", "cat"⟩,
   ⟨"DOCKERCFG", ".dockercfg", "cat"⟩,
   ⟨"PPK", "*.ppk", "cat"⟩,
   ⟨".CREDENTIALS", ".credentials", "cat"⟩,
   ⟨"CREDENTIALS (AWS)", "credentials", "cat"⟩,
   ⟨".S3CFG", ".s3cfg", "cat"⟩,
   ⟨"WP-CONFIG.PHP", "wp-config.php", "cat"⟩,
   ⟨".ENV", ".env", "cat"⟩,
   ⟨".GIT-CREDENTIALS", ".git-credentials", "cat"⟩,
   ⟨".BASH_HISTORY", ".bash_history", "cat"⟩,
   ⟨".NETRC", ".netrc", "cat"⟩,
   ⟨"FILEZILLA.XML", "filezilla.xml", "cat"⟩,
   ⟨"RECENTSERVERS.XML", "recentservers.xml", "cat"⟩,
   ⟨"CONFIG.JSON", "config.json", "cat"⟩,
   ⟨".PGPASS", ".pgpass", "cat"⟩]

/-! ## TruffleHog result filtering (Klepto2.parse_trufflehog_results) -/

/-- One parsed JSON line of TruffleHog output.  JSON fields that the code
reads with `obj.get(...)` are modelled as `Option`s (`none` = field
absent). -/
structure THRecord where
  SourceMetadata : Option String
  DetectorName : Option String
  DetectorType : Option Int
  Raw : Option String
deriving DecidableEq, Repr

/-- The projection appended to `filtered_data`; `Raw` already carries the
`obj.get("Raw", "")` default. -/
structure THFinding where
  SourceMetadata : Option String
  DetectorName : Option String
  DetectorType : Option Int
  Raw : String
deriving DecidableEq, Repr

/-- Python `detector_type in Config.DESIRED_DETECTOR_TYPES` (a missing
`DetectorType` is `None`, which is not in the integer list). -/
def detectorTypeAllowed (dt : Option Int) : Bool :=
  match dt with
  | some t => Config.DESIRED_DETECTOR_TYPES.contains t
  | none => false

/-- Python `any(term in raw.lower() for term in Config.UNDESIRED_TERMS)`. -/
def hasUndesiredTerm (raw : String) : Bool :=
  Config.UNDESIRED_TERMS.any (fun term => containsSubstr (strToLower raw) term)

/-- The dict appended to `filtered_data` for a surviving record. -/
def projectRecord (obj : THRecord) : THFinding :=
  { SourceMetadata := obj.SourceMetadata
    DetectorName := obj.DetectorName
    DetectorType := obj.DetectorType
    Raw := obj.Raw.getD "" }

/-- `Klepto2.parse_trufflehog_results`, filtering loop (lines 397-414):
the already-parsed JSON records are filtered by the detector-type allow-list,
the placeholder denylist (skipped when `raw` is falsy, i.e. empty), and
projected to the four kept fields, preserving input order. -/
def parse_trufflehog_results : List THRecord → List THFinding
  | [] => []
  | obj :: rest =>
    let raw := obj.Raw.getD ""
    if detectorTypeAllowed obj.DetectorType then
      if raw != "" && hasUndesiredTerm raw then
        parse_trufflehog_results rest
      else
        projectRecord obj :: parse_trufflehog_results rest
    else
      parse_trufflehog_results rest

/-- Modelled from the claim wording (spec §4.4): a record is retained iff its
detector type is in the allow-list and its raw text, lowercased, contains no
denylist term as a substring. -/
def retainedSpec (obj : THRecord) : Bool :=
  detectorTypeAllowed obj.DetectorType && !(hasUndesiredTerm (obj.Raw.getD ""))

/-! ## Tag resolution (HubClient.get_best_tag, Klepto2.process_image 417-431)

The Docker Hub tags HTTP call is out of scope; its outcome is a parameter:
`none` models a failed lookup (network error or 404), `some names` models a
successful response whose `results` carry the listed tag names.
-/

/-- `HubClient.get_best_tag` (lines 129-155) applied to a lookup outcome:
failure or an empty result list yields `none`; otherwise prefer the tag
literally named "latest", else the first returned tag. -/
def get_best_tag (tagsResult : Option (List String)) : Option String :=
  match tagsResult with
  | none => none
  | some [] => none
  | some (t :: ts) =>
    if (t :: ts).contains "latest" then some "latest" else some t

/-- `is_custom_registry` in `Klepto2.process_image` (lines 420-422):
`len(image_name.split("/")) > 1 and "." in image_name.split("/")[0]`. -/
def is_custom_registry (image_name : String) : Bool :=
  (splitOnChar '/' image_name).length > 1 &&
    strContains ((splitOnChar '/' image_name).headD "") '.'

/-- Tag-resolution step of `Klepto2.process_image` (lines 417-431): the
image name as it stands after the `if ":" not in image_name` block. -/
def resolve_image_name (image_name : String)
    (tagsResult : Option (List String)) : String :=
  if strContains image_name ':' then image_name
  else if is_custom_registry image_name then image_name ++ ":latest"
  else
    match get_best_tag tagsResult with
    | some tag => image_name ++ ":" ++ tag
    | none => image_name ++ ":latest"

/-- Modelled from the claim wording (spec §4.2 step 1): the tag the resolved
name should carry — "latest" without any lookup for a registry-qualified
name; otherwise "latest" if present among the returned tags, else the first
returned tag, else "latest" (also on lookup failure or empty result). -/
def tagSpec (image_name : String) (tagsResult : Option (List String)) : String :=
  if is_custom_registry image_name then "latest"
  else
    match tagsResult with
    | none => "latest"
    | some tags => if tags.contains "latest" then "latest" else tags.headD "latest"

/-! ## Input-mode resolution and deduplication (Klepto2.run, lines 516-564)

The Docker Hub search call is out of scope; it is a parameter
`searchFn : String → List String` (the `search` collaborator, which returns
`[]` on error).
-/

/-- The `--mode` choices. -/
inductive Mode
  | search
  | image
  | mixed
deriving DecidableEq, Repr

/-- The `is_image` detection in mixed mode (lines 533-535):
`":" in term or (len(term.split("/")) > 1 and "." in term.split("/")[0])`. -/
def is_image_mixed (term : String) : Bool :=
  strContains term ':' ||
    ((splitOnChar '/' term).length > 1 &&
      strContains ((splitOnChar '/' term).headD "") '.')

/-- Modelled from the claim wording (spec §4.1, mixed mode): an input is a
literal image iff it contains the tag separator or its first path segment
contains a dot. -/
def mixedLiteralSpec (term : String) : Bool :=
  strContains term ':' || strContains ((splitOnChar '/' term).headD "") '.'

/-- `Klepto2.run`, input resolution (lines 517-544): the `image_names` list
before deduplication. -/
def resolve_inputs (searchFn : String → List String) (inputs : List String) :
    Mode → List String
  | .search => inputs.flatMap searchFn
  | .image => inputs
  | .mixed =>
    inputs.flatMap (fun term =>
      if is_image_mixed term then [term] else searchFn term)

/-- `image_names = list(set(image_names))` (line 547): duplicate removal.
Python's set fixes no element order; `List.dedup` is one order-determinate
realization (the claims about it are order-independent). -/
def dedup_images (image_names : List String) : List String :=
  image_names.dedup

/-! ## Artifact naming (Klepto2.process_image, lines 460 and 507) -/

/-- Python `s.replace(a, b)` where `a` and `b` are single characters. -/
def replaceChar (s : String) (a b : Char) : String :=
  String.mk (s.data.map (fun c => if c == a then b else c))

/-- `safe_name = image_name.replace("/", "_").replace(":", "_")`
(line 460). -/
def sanitize_name (image_name : String) : String :=
  replaceChar (replaceChar image_name '/' '_') ':' '_'

/-- `os.path.join(Config.OUTPUT_DIR, f"results_{safe_name}.json")`
(line 507), for a tag-resolved image reference. -/
def artifact_path (resolved : String) : String :=
  Config.OUTPUT_DIR ++ "/" ++ ("results_" ++ sanitize_name resolved ++ ".json")

/-! ## Layer extraction (Klepto2.extract_image, lines 305-351) -/

/-- The state of a pulled image directory: its file listing (`os.listdir`)
and, when `manifest.json` is present, the outcome of parsing it —
`none` = unparsable, `some digests` = the `digest` field of each entry of
`manifest["layers"]` (with the `get` defaults of the code). -/
structure ImageDir where
  files : List String
  manifest : Option (List String)
deriving DecidableEq, Repr

/-- The `files_to_extract` list built from the manifest (lines 310-330):
empty when `manifest.json` is absent or unparsable; otherwise, per layer
digest, the digest without its "sha256:" prefix if that file exists, else
the raw digest if that file exists, else nothing. -/
def manifest_candidates (d : ImageDir) : List String :=
  if d.files.contains "manifest.json" then
    match d.manifest with
    | none => []
    | some layers =>
      layers.flatMap (fun digest =>
        let clean := strReplace digest "sha256:" ""
        if d.files.contains clean then [clean]
        else if d.files.contains digest then [digest]
        else [])
  else []

/-- `Klepto2.extract_image` (lines 305-351), as the list of files it runs
`tar -xf` on: the manifest-derived candidates, or — when those are empty —
every listed file except `manifest.json` and `version` (lines 332-338). -/
def extract_image (d : ImageDir) : List String :=
  let files_to_extract := manifest_candidates d
  if files_to_extract.isEmpty then
    d.files.filter (fun f => !(["manifest.json", "version"].contains f))
  else
    files_to_extract

/-! ## Shadow heuristic (FileScanner._check_shadow, lines 270-284) -/

/-- `FileScanner._check_shadow` (lines 270-284), as the list of finding
messages it appends for one readable file: nothing unless the content
contains `$`; otherwise a summary finding followed by one finding per
`$`-containing line, in file order. -/
def check_shadow (filepath content : String) : List String :=
  if strContains content '$' then
    ("Found SHADOW file: " ++ filepath) ::
      ((splitLines content).filter (fun line => strContains line '$')).map
        (fun line => "Shadow content: " ++ line)
  else []

/-- `FileScanner._match_pattern` (lines 265-268):
`fnmatch.fnmatch(filename.lower(), pattern.lower())`. -/
def match_pattern (filename pattern : String) : Bool :=
  fnmatch (strToLower filename) (strToLower pattern)

/-- The findings the SHADOW rule of `FileScanner.scan` (lines 249-254 with
the rule at line 89, pattern "shadow", action "shadow") contributes for one
file of the walked tree, given its basename, full path and content. -/
def shadow_rule_findings (filename filepath content : String) : List String :=
  if match_pattern filename "shadow" then check_shadow filepath content
  else []

/-! ## Per-image pipeline (Klepto2.process_image, lines 416-514)

External collaborators (Docker Hub, skopeo, the filesystem, trufflehog,
gitleaks, the output-file write) are out of scope; their outcomes for one
image are gathered in `ImageEnv`.  The pipeline itself — stage order, the
fatal pull check, result assembly, artifact naming — is the code under
verification.
-/

/-- The metadata dict returned by `skopeo inspect` (fields read with
`metadata.get(...)`; `none` = key absent). -/
structure InspectData where
  Created : Option String
  Architecture : Option String
  Os : Option String
  Layers : Option (List String)
  Env : Option (List String)
  Labels : Option (List (String × String))
deriving DecidableEq, Repr

/-- The `image_info` dict built at lines 445-452. -/
structure ImageInfo where
  Created : String
  Architecture : String
  Os : String
  LayersCount : Nat
  Env : List String
  Labels : List (String × String)
deriving DecidableEq, Repr

/-- Lines 439-452: `image_info` from a successful inspect. -/
def build_image_info (m : InspectData) : ImageInfo :=
  { Created := m.Created.getD "Unknown"
    Architecture := m.Architecture.getD "Unknown"
    Os := m.Os.getD "Unknown"
    LayersCount := (m.Layers.getD []).length
    Env := m.Env.getD []
    Labels := m.Labels.getD [] }

/-- The collaborator outcomes one image's pipeline run observes. -/
structure ImageEnv where
  /-- tag-lookup HTTP outcome (`none` = failure or 404). -/
  tags : Option (List String)
  /-- `skopeo inspect` outcome (`none` = failure; `image_info` stays `{}`). -/
  inspect : Option InspectData
  /-- whether `skopeo copy` (pull_image) succeeded. -/
  pull_ok : Bool
  /-- contents of the pulled image directory. -/
  pulled_dir : ImageDir
  /-- `FileScanner.scan` findings on the extracted tree. -/
  file_findings : List String
  /-- parsed JSON lines of the TruffleHog output file. -/
  trufflehog_records : List THRecord
  /-- parsed gitleaks report (`none` = file missing or unparsable). -/
  gitleaks : Option (List String)
  /-- whether opening/writing the result artifact succeeds. -/
  write_ok : Bool
  /-- `date -u` output used as `scan_timestamp`. -/
  timestamp : String
deriving DecidableEq, Repr

/-- `final_result` (lines 496-505). -/
structure ScanResult where
  image : String
  scan_timestamp : String
  image_metadata : Option ImageInfo
  file_findings : List String
  trufflehog_findings : List THFinding
  gitleaks_findings : List String
deriving DecidableEq, Repr

/-- Observable stage effects of one `process_image` run, in program order. -/
inductive PipelineEvent
  | inspected
  | pullAttempted
  | extracted (files : List String)
  | fileScanned
  | trufflehogRan
  | gitleaksRan
  | artifactWritten (path : String)
deriving DecidableEq, Repr

instance {ε α : Type} [DecidableEq ε] [DecidableEq α] : DecidableEq (Except ε α) :=
  fun a b =>
    match a, b with
    | .error x, .error y =>
      if h : x = y then isTrue (congrArg Except.error h)
      else isFalse (fun hc => h (Except.error.inj hc))
    | .ok x, .ok y =>
      if h : x = y then isTrue (congrArg Except.ok h)
      else isFalse (fun hc => h (Except.ok.inj hc))
    | .error _, .ok _ => isFalse (fun hc => Except.noConfusion hc)
    | .ok _, .error _ => isFalse (fun hc => Except.noConfusion hc)

/-- What one `process_image` call produces: its return value (`Except.error`
models an exception escaping the call — the unguarded artifact write is the
only raise site in the modelled code), the stage events that ran, and the
in-memory `final_result` if it was built. -/
structure PipelineOutcome where
  result : Except Unit (Option String)
  events : List PipelineEvent
  built : Option ScanResult
deriving DecidableEq, Repr

/-- The `final_result` dict (lines 496-505) for a resolved image name. -/
def build_scan_result (env : ImageEnv) (resolved : String) : ScanResult :=
  { image := resolved
    scan_timestamp := env.timestamp
    image_metadata := env.inspect.map build_image_info
    file_findings := env.file_findings
    trufflehog_findings := parse_trufflehog_results env.trufflehog_records
    gitleaks_findings := env.gitleaks.getD [] }

/-- `Klepto2.process_image` (lines 416-514): tag resolution, best-effort
inspect, fatal pull check (lines 469-470: `return None` before any later
stage), extraction, the three scans, result assembly, and the artifact
write (lines 507-509, unguarded: a write error escapes as an exception
after `final_result` was built). -/
def process_image (env : ImageEnv) (image_name : String) : PipelineOutcome :=
  let resolved := resolve_image_name image_name env.tags
  let output_file := artifact_path resolved
  if env.pull_ok then
    let extracted := extract_image env.pulled_dir
    let final_result := build_scan_result env resolved
    if env.write_ok then
      { result := .ok (some output_file)
        events := [.inspected, .pullAttempted, .extracted extracted,
                   .fileScanned, .trufflehogRan, .gitleaksRan,
                   .artifactWritten output_file]
        built := some final_result }
    else
      { result := .error ()
        events := [.inspected, .pullAttempted, .extracted extracted,
                   .fileScanned, .trufflehogRan, .gitleaksRan]
        built := some final_result }
  else
    { result := .ok none
      events := [.inspected, .pullAttempted]
      built := none }

/-- The scheduler's task boundary (lines 565-570): `future.result()` inside
`try/except` — an exception escaping `process_image` is caught and logged;
`none` is the logged-exception outcome. -/
def catch_outcome (o : PipelineOutcome) : Option (Option String) :=
  match o.result with
  | .ok r => some r
  | .error _ => none

/-- `Klepto2.run`, submission loop (lines 561-570): each deduplicated image
is submitted exactly once and its outcome observed at the task boundary. -/
def scheduler_results (envOf : String → ImageEnv) (images : List String) :
    List (String × Option (Option String)) :=
  images.map (fun img => (img, catch_outcome (process_image (envOf img) img)))

/-- `Klepto2.run` end to end over the modelled collaborators: mode
resolution, deduplication, then the worker-pool submission. -/
def klepto_run (envOf : String → ImageEnv) (searchFn : String → List String)
    (inputs : List String) (mode : Mode) :
    List (String × Option (Option String)) :=
  scheduler_results envOf (dedup_images (resolve_inputs searchFn inputs mode))

/-! ## Concrete inputs used by the claim theorems -/

/-- An allow-listed (DetectorType 2) record with a realistic raw secret. -/
def awsRealRecord : THRecord :=
  ⟨some "meta1", some "AWS", some 2, some "AKIA_real_key_value"⟩

/-- An allow-listed record whose raw secret carries denylist terms. -/
def awsPlaceholderRecord : THRecord :=
  ⟨some "meta2", some "AWS", some 2, some "test-AKIA-example"⟩

/-- A record with a detector type outside the allow-list. -/
def unknownDetectorRecord : THRecord :=
  ⟨some "meta3", some "Other", some 9999, some "harmless_value"⟩

/-- An allow-listed record with no `Raw` field at all. -/
def rawlessRecord : THRecord :=
  ⟨some "meta4", some "SlackWebhook", some 9, none⟩

/-- A pulled-image directory with no `manifest.json`. -/
def manifestlessDir : ImageDir :=
  ⟨["layer1", "version"], none⟩

/-- Collaborator outcomes for an image whose pull fails. -/
def pullFailEnv : ImageEnv :=
  { tags := some ["latest"]
    inspect := none
    pull_ok := false
    pulled_dir := ⟨[], none⟩
    file_findings := []
    trufflehog_records := []
    gitleaks := none
    write_ok := true
    timestamp := "2026-01-01T00:00:00Z" }

/-- Collaborator outcomes for an image whose pull succeeds but whose result
artifact cannot be written. -/
def writeFailEnv : ImageEnv :=
  { tags := some ["latest"]
    inspect := none
    pull_ok := true
    pulled_dir := ⟨[], none⟩
    file_findings := []
    trufflehog_records := []
    gitleaks := none
    write_ok := false
    timestamp := "2026-01-01T00:00:00Z" }

/-! ## Helper lemmas -/

/-- The filtering loop of `parse_trufflehog_results` is the stable filter by
`retainedSpec` followed by the field projection: the code's extra
`raw != ""` guard changes nothing, because an empty raw text contains no
denylist term. -/
theorem parse_eq_filter_map (recs : List THRecord) :
    parse_trufflehog_results recs = (recs.filter retainedSpec).map projectRecord := by
  induction recs with
  | nil => rfl
  | cons obj rest ih =>
    by_cases hA : detectorTypeAllowed obj.DetectorType = true
    · by_cases hR : obj.Raw.getD "" = ""
      · have hU : hasUndesiredTerm "" = false := by decide
        simp [parse_trufflehog_results, retainedSpec, hA, hU, hR, List.filter_cons, ih]
      · by_cases hU : hasUndesiredTerm (obj.Raw.getD "") = true
        · simp [parse_trufflehog_results, retainedSpec, hA, hU, hR, List.filter_cons, ih]
        · simp [parse_trufflehog_results, retainedSpec, hA, hR, List.filter_cons, ih,
                Bool.eq_false_iff.mpr hU]
    · simp [parse_trufflehog_results, retainedSpec, List.filter_cons, ih,
            Bool.eq_false_iff.mpr hA]

/-! ## Claim theorems -/

/-- C1: the TruffleHog filter retains a parsed record iff its DetectorType
is in the fixed allow-list of 22 codes and its lowercased raw text contains
no denylist term (`example`, `test`, `dummy`, `sample`) as a substring, in
input order; in particular a DetectorType-2 record with raw
`AKIA_real_key_value` is retained, one with raw `test-AKIA-example` is
dropped, and a DetectorType-9999 record is dropped regardless of content. -/
theorem C1_filter_allowlist_denylist :
    (∀ recs : List THRecord,
      parse_trufflehog_results recs = (recs.filter retainedSpec).map projectRecord)
    ∧ Config.DESIRED_DETECTOR_TYPES.length = 22
    ∧ retainedSpec awsRealRecord = true
    ∧ retainedSpec awsPlaceholderRecord = false
    ∧ retainedSpec unknownDetectorRecord = false
    ∧ parse_trufflehog_results
        [awsRealRecord, awsPlaceholderRecord, unknownDetectorRecord]
        = [projectRecord awsRealRecord] := by
  refine ⟨parse_eq_filter_map, ?_, ?_, ?_, ?_, ?_⟩ <;> decide

/-- C10: an allow-listed record whose `Raw` field is missing or empty always
survives the filter (the denylist check is skipped on falsy raw text), and
its projection carries `Raw = ""`. -/
theorem C10_empty_raw_survives (recs : List THRecord) (obj : THRecord)
    (hraw : obj.Raw.getD "" = "")
    (hdt : detectorTypeAllowed obj.DetectorType = true)
    (hmem : obj ∈ recs) :
    projectRecord obj ∈ parse_trufflehog_results recs
      ∧ (projectRecord obj).Raw = "" := by
  constructor
  · rw [parse_eq_filter_map]
    refine List.mem_map_of_mem _ (List.mem_filter.mpr ⟨hmem, ?_⟩)
    unfold retainedSpec
    rw [hraw, hdt]
    decide
  · simp [projectRecord, hraw]

/-- Witness for C10 at a concrete record list. -/
theorem C10_empty_raw_survives_witness :
    projectRecord rawlessRecord
        ∈ parse_trufflehog_results [awsRealRecord, rawlessRecord]
      ∧ (projectRecord rawlessRecord).Raw = "" :=
  C10_empty_raw_survives [awsRealRecord, rawlessRecord] rawlessRecord
    rfl (by decide) (by decide)

/-- C2: for an identifier with no `:`, the resolved name is the identifier
plus `:` plus the spec's tag (always `latest` for a registry-qualified name,
independent of any lookup; otherwise `latest` if among the returned tags,
else the first returned tag, else `latest`, also on lookup failure or an
empty result); in particular `myrepo` resolves to `myrepo:latest` when the
lookup returns a list containing `latest`, to `myrepo:v2` on `["v2","v1"]`,
and to `myrepo:latest` on a failed lookup. -/
theorem C2_tag_resolution :
    (∀ (name : String) (t : Option (List String)), strContains name ':' = false →
      resolve_image_name name t = name ++ ":" ++ tagSpec name t)
    ∧ (∀ (name : String) (t1 t2 : Option (List String)),
        is_custom_registry name = true →
        resolve_image_name name t1 = resolve_image_name name t2)
    ∧ resolve_image_name "myrepo" (some ["latest", "v3"]) = "myrepo:latest"
    ∧ resolve_image_name "myrepo" (some ["v2", "v1"]) = "myrepo:v2"
    ∧ resolve_image_name "myrepo" none = "myrepo:latest"
    ∧ resolve_image_name "registry.example.com/team/app" none
        = "registry.example.com/team/app:latest" := by
  refine ⟨?_, ?_, by decide, by decide, by decide, by decide⟩
  · intro name t h
    unfold resolve_image_name tagSpec
    rw [h]
    by_cases hc : is_custom_registry name = true
    · simp [hc, String.append_assoc]
    · rw [Bool.eq_false_iff.mpr hc]
      cases t with
      | none => simp [get_best_tag, String.append_assoc]
      | some tags =>
        cases tags with
        | nil => simp [get_best_tag, String.append_assoc]
        | cons a as =>
          unfold get_best_tag
          by_cases hl : "latest" = a ∨ "latest" ∈ as
          · simp [hl]
          · simp [hl, List.headD]
  · intro name t1 t2 hc
    unfold resolve_image_name
    by_cases h : strContains name ':' = true
    · simp [h]
    · simp [Bool.eq_false_iff.mpr h, hc]

/-- Witness for C2 at concrete inputs. -/
theorem C2_tag_resolution_witness :
    resolve_image_name "team/app" (some ["v9"])
        = "team/app" ++ ":" ++ tagSpec "team/app" (some ["v9"])
      ∧ resolve_image_name "h.io/app" (some ["v9"])
        = resolve_image_name "h.io/app" none :=
  ⟨C2_tag_resolution.1 "team/app" (some ["v9"]) (by decide),
   C2_tag_resolution.2.1 "h.io/app" (some ["v9"]) none (by decide)⟩

/-- C3: when the pull collaborator reports failure, `process_image` returns
none, builds no result, writes no artifact, runs no later stage (no
extraction, file scan, detector run, or write event), and any other image's
outcome depends only on that image's own collaborator outcomes. -/
theorem C3_pull_failure_aborts (env : ImageEnv) (name : String)
    (h : env.pull_ok = false) :
    (process_image env name).result = Except.ok none
    ∧ (process_image env name).built = none
    ∧ (∀ p, PipelineEvent.artifactWritten p ∉ (process_image env name).events)
    ∧ (∀ fs, PipelineEvent.extracted fs ∉ (process_image env name).events)
    ∧ PipelineEvent.fileScanned ∉ (process_image env name).events
    ∧ PipelineEvent.trufflehogRan ∉ (process_image env name).events
    ∧ PipelineEvent.gitleaksRan ∉ (process_image env name).events
    ∧ (∀ (envOf envOf' : String → ImageEnv) (img : String),
        img ≠ name → envOf img = envOf' img →
        process_image (envOf img) img = process_image (envOf' img) img) := by
  refine ⟨?_, ?_, ?_, ?_, ?_, ?_, ?_, ?_⟩
  · simp [process_image, h]
  · simp [process_image, h]
  · intro p; simp [process_image, h]
  · intro fs; simp [process_image, h]
  · simp [process_image, h]
  · simp [process_image, h]
  · simp [process_image, h]
  · intro envOf envOf' img _ heq; rw [heq]

/-- Witness for C3 at a concrete failing-pull environment. -/
theorem C3_pull_failure_aborts_witness :
    (process_image pullFailEnv "badrepo").result = Except.ok none
    ∧ (process_image pullFailEnv "badrepo").built = none :=
  ⟨(C3_pull_failure_aborts pullFailEnv "badrepo" rfl).1,
   (C3_pull_failure_aborts pullFailEnv "badrepo" rfl).2.1⟩

/-- C6 counterexample: with a successful pull but a failing artifact write,
`process_image` ends in the exception outcome — the write error is not
handled inside the persist stage (lines 507-509 are unguarded), so it does
raise past that stage, refuting the claim. -/
theorem C6_counterexample :
    writeFailEnv.pull_ok = true ∧ writeFailEnv.write_ok = false
    ∧ (process_image writeFailEnv "repo:v1").result = Except.error () := by
  exact ⟨rfl, rfl, rfl⟩

/-- C6 amended: a write error escapes `process_image` as an exception and is
caught (logged) only at the scheduler's task boundary, where it affects no
other image; no artifact-write event occurs, but the in-memory ScanResult
had still been produced before the write. -/
theorem C6_write_error_propagates (env : ImageEnv) (name : String)
    (hp : env.pull_ok = true) (hw : env.write_ok = false) :
    (process_image env name).result = Except.error ()
    ∧ (process_image env name).built
        = some (build_scan_result env (resolve_image_name name env.tags))
    ∧ (∀ p, PipelineEvent.artifactWritten p ∉ (process_image env name).events)
    ∧ (∀ (envOf : String → ImageEnv) (images : List String),
        envOf name = env → name ∈ images →
        (name, (none : Option (Option String))) ∈ scheduler_results envOf images) := by
  refine ⟨?_, ?_, ?_, ?_⟩
  · simp [process_image, hp, hw]
  · simp [process_image, hp, hw]
  · intro p; simp [process_image, hp, hw]
  · intro envOf images he hm
    have hmem : (name, catch_outcome (process_image (envOf name) name))
        ∈ images.map (fun img => (img, catch_outcome (process_image (envOf img) img))) :=
      List.mem_map_of_mem _ hm
    rw [he] at hmem
    simpa [scheduler_results, catch_outcome, process_image, hp, hw] using hmem

/-- Witness for the amended C6 at a concrete environment. -/
theorem C6_write_error_propagates_witness :
    (process_image writeFailEnv "repo:v2").result = Except.error ()
    ∧ (process_image writeFailEnv "repo:v2").built
        = some (build_scan_result writeFailEnv
            (resolve_image_name "repo:v2" writeFailEnv.tags)) :=
  ⟨(C6_write_error_propagates writeFailEnv "repo:v2" rfl rfl).1,
   (C6_write_error_propagates writeFailEnv "repo:v2" rfl rfl).2.1⟩

/-- C4: when the manifest is absent, unparsable, or yields zero extractable
layer files, the extractor extracts exactly every file of the pulled image
directory except `manifest.json` and `version`; on an empty directory it
extracts nothing. -/
theorem C4_manifest_fallback (d : ImageDir)
    (h : d.files.contains "manifest.json" = false ∨ d.manifest = none
         ∨ manifest_candidates d = []) :
    extract_image d
        = d.files.filter (fun f => !(["manifest.json", "version"].contains f))
    ∧ (d.files = [] → extract_image d = []) := by
  have hc : manifest_candidates d = [] := by
    rcases h with h | h | h
    · have h' : "manifest.json" ∉ d.files := by simpa using h
      simp [manifest_candidates, h']
    · unfold manifest_candidates
      rw [h]
      simp
    · exact h
  constructor
  · simp [extract_image, hc]
  · intro hf
    simp [extract_image, hc, hf]

/-- Witness for C4: a directory without `manifest.json` falls back to the
filtered listing, here exactly `["layer1"]`. -/
theorem C4_manifest_fallback_witness :
    extract_image manifestlessDir
        = manifestlessDir.files.filter
            (fun f => !(["manifest.json", "version"].contains f))
    ∧ extract_image manifestlessDir = ["layer1"] :=
  ⟨(C4_manifest_fallback manifestlessDir (Or.inl (by decide))).1, by decide⟩

/-- C5 counterexample: the filename `myshadow` matches the glob `*shadow*`
and the content carries a `$` line, yet the shadow rule — whose configured
pattern is the bare `shadow`, an exact-name match — produces zero findings,
refuting the claim as stated over all `*shadow*`-matching paths. -/
theorem C5_counterexample :
    match_pattern "myshadow" "*shadow*" = true
    ∧ strContains "root:$6$abc:x" '$' = true
    ∧ shadow_rule_findings "myshadow" "/etc/myshadow" "root:$6$abc:x" = [] := by
  refine ⟨by decide, by decide, by decide⟩

/-- C5 amended: for a file whose name matches the rule's actual pattern (the
bare glob `shadow`, i.e. the name is exactly `shadow` up to case): content
without `$` yields zero findings; otherwise the rule emits the summary
finding followed by one finding per `$`-containing line in file order, and
every `$`-containing line's text appears in a finding. -/
theorem C5_shadow_heuristic (filename filepath content : String)
    (h : match_pattern filename "shadow" = true) :
    (strContains content '$' = false →
      shadow_rule_findings filename filepath content = [])
    ∧ shadow_rule_findings filename filepath content
        = (if strContains content '$' then
            ("Found SHADOW file: " ++ filepath) ::
              ((splitLines content).filter (fun line => strContains line '$')).map
                (fun line => "Shadow content: " ++ line)
          else [])
    ∧ (strContains content '$' = true →
        ∀ line ∈ splitLines content, strContains line '$' = true →
          ("Shadow content: " ++ line)
            ∈ shadow_rule_findings filename filepath content) := by
  refine ⟨?_, ?_, ?_⟩
  · intro hc
    simp [shadow_rule_findings, h, check_shadow, hc]
  · simp [shadow_rule_findings, h, check_shadow]
  · intro hc line hl hdol
    simp only [shadow_rule_findings, h, check_shadow, hc, if_pos, if_true]
    exact List.mem_cons_of_mem _
      (List.mem_map_of_mem _ (List.mem_filter.mpr ⟨hl, hdol⟩))

/-- Witness for the amended C5 on a concrete shadow file. -/
theorem C5_shadow_heuristic_witness :
    shadow_rule_findings "SHADOW" "/etc/shadow" "root:$6$abc:x\nuser:*:y"
      = ["Found SHADOW file: /etc/shadow", "Shadow content: root:$6$abc:x"]
    ∧ ("Shadow content: root:$6$abc:x")
        ∈ shadow_rule_findings "SHADOW" "/etc/shadow" "root:$6$abc:x\nuser:*:y" := by
  have h := C5_shadow_heuristic "SHADOW" "/etc/shadow" "root:$6$abc:x\nuser:*:y"
    (by decide)
  exact ⟨by rw [h.2.1]; decide,
         h.2.2 (by decide) "root:$6$abc:x" (by decide) (by decide)⟩

/-- C7: after mode resolution the scheduler processes each distinct image
identifier exactly once — its submission list counts every resolved name
once and every other string zero times; in particular two raw inputs whose
searches return the same image name yield a single scan of that name. -/
theorem C7_dedup_processes_once :
    (∀ (searchFn : String → List String) (envOf : String → ImageEnv)
       (inputs : List String) (mode : Mode) (name : String),
      ((klepto_run envOf searchFn inputs mode).map Prod.fst).count name
        = if name ∈ resolve_inputs searchFn inputs mode then 1 else 0)
    ∧ ((klepto_run (fun _ => pullFailEnv) (fun _ => ["library/nginx"])
          ["web", "frontend"] Mode.mixed).map Prod.fst)
        = ["library/nginx"] := by
  constructor
  · intro searchFn envOf inputs mode name
    unfold klepto_run scheduler_results dedup_images
    rw [List.map_map]
    have hfst : (Prod.fst ∘ fun img =>
        (img, catch_outcome (process_image (envOf img) img))) = id := rfl
    rw [hfst, List.map_id, List.count_dedup]
  · decide

/-- C8 counterexample: the input `a.b` contains no `:` and its first (and
only) path segment contains a dot, so the claim calls it a literal image;
but the code additionally requires more than one path segment, so mixed
mode passes `a.b` to the search collaborator instead. -/
theorem C8_counterexample :
    mixedLiteralSpec "a.b" = true
    ∧ is_image_mixed "a.b" = false
    ∧ resolve_inputs (fun _ => ["searched/result"]) ["a.b"] Mode.mixed
        = ["searched/result"] := by
  refine ⟨by decide, by decide, by decide⟩

/-- C8 amended: in mode `mixed` an input is treated as a literal image name
iff it contains `:`, or it has more than one path segment and its first
segment contains a dot; otherwise it is passed to the search collaborator
and the results are unioned. -/
theorem C8_mixed_mode_detection (searchFn : String → List String)
    (inputs : List String) :
    resolve_inputs searchFn inputs Mode.mixed
      = inputs.flatMap (fun term =>
          if strContains term ':' ||
              ((splitOnChar '/' term).length > 1 &&
                strContains ((splitOnChar '/' term).headD "") '.') then [term]
          else searchFn term)
    ∧ (∀ term, is_image_mixed term = false →
        resolve_inputs searchFn [term] Mode.mixed = searchFn term)
    ∧ (∀ term, is_image_mixed term = true →
        resolve_inputs searchFn [term] Mode.mixed = [term]) := by
  refine ⟨rfl, ?_, ?_⟩
  · intro term h
    simp [resolve_inputs, h]
  · intro term h
    simp [resolve_inputs, h]

/-- Witness for the amended C8 on concrete inputs. -/
theorem C8_mixed_mode_detection_witness :
    resolve_inputs (fun _ => ["hit1", "hit2"]) ["a.b"] Mode.mixed
        = ["hit1", "hit2"]
    ∧ resolve_inputs (fun _ => ["hit1", "hit2"]) ["quay.io/coreos/etcd"]
        Mode.mixed = ["quay.io/coreos/etcd"] :=
  ⟨(C8_mixed_mode_detection (fun _ => ["hit1", "hit2"]) []).2.1 "a.b" (by decide),
   (C8_mixed_mode_detection (fun _ => ["hit1", "hit2"]) []).2.2
     "quay.io/coreos/etcd" (by decide)⟩

/-- Cancellation of a shared string prefix. -/
theorem strAppend_left_cancel (p x y : String) (h : p ++ x = p ++ y) :
    x = y := by
  have hd := congrArg String.data h
  simp only [String.data_append] at hd
  exact String.ext (List.append_cancel_left hd)

/-- Cancellation of a shared string suffix. -/
theorem strAppend_right_cancel (x y q : String) (h : x ++ q = y ++ q) :
    x = y := by
  have hd := congrArg String.data h
  simp only [String.data_append] at hd
  exact String.ext (List.append_cancel_right hd)

/-- C9 counterexample: `a_b` and `a/b` are distinct identifiers, both
members of the deduplicated set, their tag-resolved references differ, yet
sanitizing `/` and `:` to `_` sends both to the same artifact path, so the
claimed collision-freedom fails. -/
theorem C9_counterexample :
    ("a_b" : String) ≠ "a/b"
    ∧ "a_b" ∈ dedup_images ["a_b", "a/b"]
    ∧ "a/b" ∈ dedup_images ["a_b", "a/b"]
    ∧ resolve_image_name "a_b" none ≠ resolve_image_name "a/b" none
    ∧ artifact_path (resolve_image_name "a_b" none)
        = artifact_path (resolve_image_name "a/b" none) := by
  refine ⟨by decide, by decide, by decide, by decide, by decide⟩

/-- C9 amended: artifact paths are distinct whenever the sanitized
(`/`,`:` to `_`) image references are distinct; since the sanitization is
not injective, two distinct identifiers in the deduplicated set can still
collide (as the counterexample shows). -/
theorem C9_sanitized_paths_distinct (a b : String)
    (h : sanitize_name a ≠ sanitize_name b) :
    artifact_path a ≠ artifact_path b := by
  intro heq
  apply h
  unfold artifact_path at heq
  have h1 := strAppend_left_cancel _ _ _ heq
  have h2 := strAppend_right_cancel _ _ _ h1
  exact strAppend_left_cancel _ _ _ h2

/-- Witness for the amended C9 at two concrete references. -/
theorem C9_sanitized_paths_distinct_witness :
    artifact_path "alpha:latest" ≠ artifact_path "beta:latest" :=
  C9_sanitized_paths_distinct "alpha:latest" "beta:latest" (by decide)

end Klepto2
